import Mathlib

/-!
Verification development for `svg-to-inline.js`: a shallow embedding of the
module's functions over an explicit DOM model, together with theorems and
counterexamples about the conversion pipeline.

Modelling conventions:
* Machine-level DOM objects become explicit Lean structures; stateful DOM
  mutation becomes explicit state passing.
* JavaScript attribute access: `getAttribute` returns `null` for a missing
  attribute, modelled as `Option String` with `none` for `null`/`undefined`.
* JavaScript truthiness on those values: `null`, `undefined` and the empty
  string are falsy; every other string is truthy (`jsTruthy`).
* The DOM properties `element.id` and `element.className` are never
  `undefined` in a browser (`id` is a string defaulting to `""`;
  `className` on an SVG element is an `SVGAnimatedString` object), so the
  source's `typeof x !== 'undefined'` guards on them are always true; the
  embedding takes those branches unconditionally and records the reason in
  comments at the corresponding places.
* Rendered geometry (`getBBox`) cannot be computed from markup, so it is an
  oracle supplied by the environment; it is a function of whether the
  internal styles have already been namespaced, since the class rewriting
  can change which style rules apply (e.g. rules whose selectors are not a
  single class get rewritten to selectors that no longer match).
-/

/-- JavaScript truthiness for a nullable string: null/undefined (`none`) and
the empty string are falsy. -/
def jsTruthy : Option String → Bool
  | none => false
  | some s => !(s == "")

/-- JavaScript `a || b` on nullable strings: `a` when truthy, else `b`. -/
def jsOr (a b : Option String) : Option String :=
  if jsTruthy a then a else b

/-- A DOM element, restricted to the state the module reads and writes:
its attribute list (presence in the list models attribute existence), its
class list (`classList`), whether a `class` attribute exists at all, and
the inline `style.display` value. -/
structure Elem where
  attrs : List (String × String)
  classes : List String
  classAttrDefined : Bool
  display : Option String
deriving Repr, DecidableEq

/-- DOM `getAttribute`: the value of the first attribute with the given
name, or `none` for JavaScript's `null`. -/
def Elem.getAttribute (e : Elem) (n : String) : Option String :=
  (e.attrs.find? (fun p => p.1 == n)).map (fun p => p.2)

/-- DOM `setAttribute`: overwrite every existing attribute entry with this
name, or append a new entry when the attribute does not exist yet. -/
def Elem.setAttribute (e : Elem) (n v : String) : Elem :=
  if (e.attrs.find? (fun p => p.1 == n)).isSome then
    { e with attrs := e.attrs.map (fun p => if p.1 == n then (n, v) else p) }
  else
    { e with attrs := e.attrs ++ [(n, v)] }

/-- DOM `removeAttribute`: drop every attribute entry with this name. -/
def Elem.removeAttribute (e : Elem) (n : String) : Elem :=
  { e with attrs := e.attrs.filter (fun p => !(p.1 == n)) }

/-- DOM `classList.add`: append the token unless it is already present;
adding a token materialises the `class` attribute. -/
def Elem.classListAdd (e : Elem) (c : String) : Elem :=
  if c ∈ e.classes then e
  else { e with classes := e.classes ++ [c], classAttrDefined := true }

/-- DOM `id` property: reflects the `id` attribute, defaulting to the empty
string when the attribute is absent (it is never `undefined`). -/
def Elem.idProp (e : Elem) : String :=
  (e.getAttribute "id").getD ""

/-- Source `setViewport(svg)`: when `!svg.getAttribute('viewBox')` is
truthy-false and both `height` and `width` attributes are truthy, set
`viewBox` to `'0 0 ' + height + ' ' + width` (height first, as written). -/
def setViewport (svg : Elem) : Elem :=
  if !(jsTruthy (svg.getAttribute "viewBox"))
      && jsTruthy (svg.getAttribute "height")
      && jsTruthy (svg.getAttribute "width") then
    svg.setAttribute "viewBox"
      ("0 0 " ++ ((svg.getAttribute "height").getD "") ++ " "
        ++ ((svg.getAttribute "width").getD ""))
  else
    svg

/-- Source `optimizeInlineSVG(svgInline)`.  Note that the source reads
`svgInline.id` and `svgInline.className` — the properties of the parsed
SVG root itself, not of the replaced placeholder — and that both
`typeof imgID !== 'undefined'` and `typeof imgClass !== 'undefined'` are
always true in a browser (the `id` property is a string, `className` on an
SVG element is an `SVGAnimatedString` object), so both guarded branches
always run. -/
def optimizeInlineSVG (svgInline : Elem) : Elem :=
  let imgID := svgInline.idProp
  -- `typeof imgID !== 'undefined'` is always true: take the branch.
  let e1 := svgInline.setAttribute "id" imgID
  -- `typeof imgClass !== 'undefined'` is always true: take the branch.
  let e2 := e1.classListAdd "replaced-svg"
  let e3 := e2.classListAdd "img-fluid"
  let e4 := e3.removeAttribute "xmlns:a"
  setViewport e4

/-- Source `safariHack(svgInline)`: set `style.display` to `'none'`, read
`offsetHeight` (a pure layout read, no state change), then set
`style.display` to `'flex'`. -/
def safariHack (svgInline : Elem) : Elem :=
  let e1 := { svgInline with display := some "none" }
  -- svgInline.offsetHeight : layout read only
  { e1 with display := some "flex" }

/-- One CSS rule of a stylesheet as the CSSOM exposes it: the selector text
(for the rules the module handles, `.<class>`) and the ordered list of
declared property/value pairs (`style[m]` / `style[styleType]`). -/
structure CSSRule where
  selectorText : String
  props : List (String × String)
deriving Repr, DecidableEq

/-- One entry of `document.styleSheets`, fused with its owner `<style>`
node: `ownerParentId` is the node id of `ownerNode.parentNode` (the source
compares it with the inserted root by object identity), `ownerText` is the
owner node's `innerHTML`, and `rules` is the `cssRules` snapshot the code
reads before clearing `innerHTML` (the old sheet object keeps its rules
after the owner node's content is replaced). -/
structure Sheet where
  ownerParentId : Nat
  ownerText : String
  rules : List CSSRule
deriving Repr, DecidableEq

/-- The parsed SVG root: its DOM node id (for identity comparisons), the
root element's own state, the descendant elements
(`getElementsByClassName` searches these), and the stylesheets contributed
by `<style>` nodes inside it, which join `document.styleSheets` once the
root is inserted into the live document. -/
structure SvgRoot where
  nodeId : Nat
  elem : Elem
  elems : List Elem
  ownSheets : List Sheet
deriving Repr, DecidableEq

/-- Source `uid.replace(/^[0-9]+/, '')`: drop the leading run of decimal
digits from the string. -/
def stripLeadingDigits (s : String) : String :=
  String.mk (s.data.dropWhile (fun c => c.isDigit))

/-- The class name produced by the namespacing step for original class `c`
when `Date.now()` returned `t`: the uid is `uid-${t}` with leading digits
stripped (a no-op, since the string starts with 'u'), and the new class is
`${uid}-${c}`. -/
def nsClassName (t : Nat) (c : String) : String :=
  stripLeadingDigits ("uid-" ++ Nat.repr t) ++ "-" ++ c

/-- Source `elements[m].classList.replace(oldElementClass, newElementClass)`
applied to every element `getElementsByClassName(old)` finds: elements
carrying the token `old` get it swapped for `neu`. -/
def replaceClass (old neu : String) (e : Elem) : Elem :=
  if old ∈ e.classes then
    { e with classes := e.classes.map (fun c => if c == old then neu else c) }
  else e

/-- One iteration of the rule loop of `svgPrependClassIdentifiers`: take
`oldElementClass = selectorText.substring(1)`, build the prefixed class,
append `.${uid}-${old}{prop: val;}\n` to the accumulated `innerHTML` per
declared property, and swap the class on every element of the root that
carries the old class. -/
def nsApplyRule (uid : String) (acc : String × SvgRoot) (rule : CSSRule) :
    String × SvgRoot :=
  let old := rule.selectorText.drop 1
  let neu := uid ++ "-" ++ old
  let text := rule.props.foldl
    (fun t p => t ++ "." ++ neu ++ "\x7b" ++ p.1 ++ ": " ++ p.2 ++ ";\x7d\n")
    acc.1
  (text, { acc.2 with elems := acc.2.elems.map (replaceClass old neu) })

/-- The body of the sheet-rewriting branch of `svgPrependClassIdentifiers`:
`styleNode.innerHTML = ''`, then process each rule of the snapshot in
order.  Returns the final `innerHTML` of the owner node and the updated
root. -/
def nsOneSheet (uid : String) (r : SvgRoot) (s : Sheet) : String × SvgRoot :=
  s.rules.foldl (nsApplyRule uid) ("", r)

/-- The traversal of `document.styleSheets`: sheets whose owner node's
parent is the inserted root (`svgInline === styleNode.parentNode`) are
rewritten via `nsOneSheet`; every other sheet is left untouched. -/
def nsSheets (uid : String) (rootId : Nat) : SvgRoot → List Sheet → SvgRoot × List Sheet
  | r, [] => (r, [])
  | r, s :: rest =>
    if s.ownerParentId == rootId then
      let p := nsOneSheet uid r s
      let q := nsSheets uid rootId p.2 rest
      (q.1, { s with ownerText := p.1 } :: q.2)
    else
      let q := nsSheets uid rootId r rest
      (q.1, s :: q.2)

/-- Source `svgPrependClassIdentifiers(svgInline)`: compute
`uid = ('uid-' + Date.now()).replace(/^[0-9]+/, '')` (with `Date.now()`
supplied as `now`) and rewrite exactly the sheets owned by `<style>` nodes
whose parent is the inserted root. -/
def svgPrependClassIdentifiers (now : Nat) (root : SvgRoot) (sheets : List Sheet) :
    SvgRoot × List Sheet :=
  let uid := stripLeadingDigits ("uid-" ++ Nat.repr now)
  nsSheets uid root.nodeId root sheets

/-- The result of `getBBox()`: the tight bounding box of the rendered root.
Fields follow the `SVGRect` names used by the source. -/
structure Rect where
  x : Int
  y : Int
  width : Int
  height : Int
deriving Repr, DecidableEq

/-- Source `[bbox.x, bbox.y, bbox.width, bbox.height].join(' ')`. -/
def rectJoin (b : Rect) : String :=
  String.intercalate " " [toString b.x, toString b.y, toString b.width, toString b.height]

/-- The rendering oracle of the host document: `bbox b` is what `getBBox()`
returns on the inserted root when `b` says whether the internal styles have
already been namespaced, and `now` is what `Date.now()` returns inside the
namespacing step. -/
structure RenderEnv where
  bbox : Bool → Rect
  now : Nat

/-- Source `removeSVGWhiteSpace(svgInline)`: overwrite the `viewBox`
attribute with the joined `getBBox()` rectangle.  `nsDone` records the
pipeline phase at which the bounding box is sampled. -/
def removeSVGWhiteSpace (env : RenderEnv) (nsDone : Bool) (root : SvgRoot) : SvgRoot :=
  let bbox := env.bbox nsDone
  { root with elem := root.elem.setAttribute "viewBox" (rectJoin bbox) }

/-- The state threaded through the post-insertion fixups: the inserted
root, the document's stylesheet list, and whether namespacing has run. -/
structure ProcState where
  root : SvgRoot
  sheets : List Sheet
  nsDone : Bool
deriving Repr, DecidableEq

/-- The observable steps of one conversion, in execution order. -/
inductive Step where
  | optimize
  | replace
  | trim
  | nsStyles
  | repaint
deriving Repr, DecidableEq, BEq

/-- Source `processFeaturedMerchantsImages(svgInline)`: optimize the (already
inserted) root again, trim whitespace, namespace the internal styles, then
run the repaint hack.  Also returns the step trace for order reasoning. -/
def processFeaturedMerchantsImages (env : RenderEnv) (st : ProcState) :
    ProcState × List Step :=
  let st1 := { st with root := { st.root with elem := optimizeInlineSVG st.root.elem } }
  let st2 := { st1 with root := removeSVGWhiteSpace env st1.nsDone st1.root }
  let p := svgPrependClassIdentifiers env.now st2.root st2.sheets
  let st3 : ProcState := { root := p.1, sheets := p.2, nsDone := true }
  let st4 := { st3 with root := { st3.root with elem := safariHack st3.root.elem } }
  (st4, [Step.optimize, Step.trim, Step.nsStyles, Step.repaint])

/-- A node of the parent's child list: the original placeholder or an
inserted SVG root. -/
inductive Node where
  | img (e : Elem)
  | svg (r : SvgRoot)
deriving Repr, DecidableEq

/-- The live document as the module sees it: the child list of the
placeholder's parent and `document.styleSheets`. -/
structure Doc where
  nodes : List Node
  sheets : List Sheet
deriving Repr, DecidableEq

/-- The errors a conversion's promise chain can reject with: a fetch
rejection (network failure) or the TypeError raised when the parsed markup
has no `svg` element and `optimizeInlineSVG` dereferences `undefined`. -/
inductive ConvErr where
  | fetchError (msg : String)
  | typeError
deriving Repr, DecidableEq

/-- The host environment of one conversion: the network (`fetch` on the
resolved, possibly undefined, URL), the parser combined with
`getElementsByTagName('svg')[0]` (`none` when no `svg` element exists), and
the rendering oracle. -/
structure Env where
  fetch : Option String → Except String String
  parse : String → Option SvgRoot
  render : RenderEnv

/-- The outcome of one conversion: the document afterwards, the rejection
of the (uncaught) promise chain if any, and the step trace. -/
structure ConvResult where
  doc : Doc
  err : Option ConvErr
  trace : List Step
deriving Repr, DecidableEq

/-- Source `svgSource.dataset.svgSrc || svgSource.src`: the data-bound URL
field wins when truthy, else the generic source attribute is used. -/
def resolveURL (svgSource : Elem) : Option String :=
  jsOr (svgSource.getAttribute "data-svg-src") (svgSource.getAttribute "src")

/-- Source `convertSVGtoInline(svgSource)`: resolve the URL, fetch, parse,
optimize the root, replace the placeholder (at position `k` in its
parent's child list) with it, then run the post-insertion fixups.  A fetch
rejection or a missing `svg` element rejects the chain without touching
the document. -/
def convertSVGtoInline (env : Env) (svgSource : Elem) (doc : Doc) (k : Nat) : ConvResult :=
  let imgURL := resolveURL svgSource
  match env.fetch imgURL with
  | Except.error m => { doc := doc, err := some (ConvErr.fetchError m), trace := [] }
  | Except.ok text =>
    match env.parse text with
    | none => { doc := doc, err := some ConvErr.typeError, trace := [] }
    | some root0 =>
      let root1 : SvgRoot := { root0 with elem := optimizeInlineSVG root0.elem }
      let nodes1 := doc.nodes.set k (Node.svg root1)
      let sheets1 := doc.sheets ++ root1.ownSheets
      let p := processFeaturedMerchantsImages env.render
        { root := root1, sheets := sheets1, nsDone := false }
      { doc := { nodes := nodes1.set k (Node.svg p.1.root), sheets := p.1.sheets },
        err := none,
        trace := [Step.optimize, Step.replace] ++ p.2 }

/-- The root element stored at position `k` of the document, if any. -/
def rootElemAt (d : Doc) (k : Nat) : Option Elem :=
  match d.nodes.get? k with
  | some (Node.svg r) => some r.elem
  | _ => none

/-- The `viewBox` attribute of the root element at position `k`. -/
def rootViewBoxAt (d : Doc) (k : Nat) : Option String :=
  (rootElemAt d k).bind (fun e => e.getAttribute "viewBox")

/-- Whether the root element at position `k` carries the class `c`. -/
def rootHasClass (d : Doc) (k : Nat) (c : String) : Bool :=
  match rootElemAt d k with
  | some e => e.classes.contains c
  | none => false

/-- The class lists of the descendant elements of the root at position `k`. -/
def rootClassesAt (d : Doc) (k : Nat) : Option (List (List String)) :=
  match d.nodes.get? k with
  | some (Node.svg r) => some (r.elems.map (fun e => e.classes))
  | _ => none

/-- The `id` attribute of the root element at position `k`. -/
def rootIdAt (d : Doc) (k : Nat) : Option String :=
  (rootElemAt d k).bind (fun e => e.getAttribute "id")

/-- An element with no attributes, no classes and no inline style. -/
def emptyElem : Elem :=
  { attrs := [], classes := [], classAttrDefined := false, display := none }

/-- A parsed SVG root with no attributes, descendants or internal styles. -/
def plainRoot : SvgRoot :=
  { nodeId := 1, elem := emptyElem, elems := [], ownSheets := [] }

/-- A placeholder carrying an `id` attribute, for checking whether a
conversion carries it onto the inserted root. -/
def c1Ph : Elem :=
  { attrs := [("id", "logo"), ("src", "logo.svg")], classes := [],
    classAttrDefined := false, display := none }

/-- An environment whose fetch and parse succeed with `plainRoot`. -/
def c1Env : Env :=
  { fetch := fun _ => Except.ok "<svg/>", parse := fun _ => some plainRoot,
    render := { bbox := fun _ => ⟨0, 0, 1, 1⟩, now := 3 } }

/-- A document holding just the `c1Ph` placeholder. -/
def c1Doc : Doc := { nodes := [Node.img c1Ph], sheets := [] }

/-- A placeholder with no `class` attribute at all. -/
def c2Ph : Elem :=
  { attrs := [("src", "a.svg")], classes := [], classAttrDefined := false,
    display := none }

/-- An environment whose fetch and parse succeed with `plainRoot`. -/
def c2Env : Env :=
  { fetch := fun _ => Except.ok "<svg/>", parse := fun _ => some plainRoot,
    render := { bbox := fun _ => ⟨0, 0, 1, 1⟩, now := 3 } }

/-- A document holding just the `c2Ph` placeholder. -/
def c2Doc : Doc := { nodes := [Node.img c2Ph], sheets := [] }

/-- An element already carrying one class, used to exercise the class
bookkeeping of the optimization step. -/
def c2E0 : Elem :=
  { attrs := [], classes := ["a"], classAttrDefined := true, display := none }

/-- A rendering oracle whose bounding box differs before and after the
styles are namespaced (realisable: the rewriting drops every rule whose
selector is not a single class, which can change layout). -/
def c3Bbox : Bool → Rect :=
  fun b => if b then ⟨1, 1, 5, 5⟩ else ⟨0, 0, 10, 10⟩

/-- A placeholder with a plain `src` attribute. -/
def c3Ph : Elem :=
  { attrs := [("src", "b.svg")], classes := [], classAttrDefined := false,
    display := none }

/-- A parsed root that already has a `viewBox` attribute, so that the
trim step's overwrite is observable. -/
def c3Root : SvgRoot :=
  { nodeId := 1,
    elem := { attrs := [("viewBox", "7 7 7 7")], classes := [],
              classAttrDefined := false, display := none },
    elems := [], ownSheets := [] }

/-- An environment using the phase-sensitive bounding-box oracle. -/
def c3Env : Env :=
  { fetch := fun _ => Except.ok "<svg/>", parse := fun _ => some c3Root,
    render := { bbox := c3Bbox, now := 5 } }

/-- A document holding just the `c3Ph` placeholder. -/
def c3Doc : Doc := { nodes := [Node.img c3Ph], sheets := [] }

/-- A placeholder with a plain `src` attribute. -/
def c4Ph : Elem :=
  { attrs := [("src", "c.svg")], classes := [], classAttrDefined := false,
    display := none }

/-- An environment whose fetch and parse succeed with `plainRoot`. -/
def c4Env : Env :=
  { fetch := fun _ => Except.ok "svg", parse := fun _ => some plainRoot,
    render := { bbox := fun _ => ⟨0, 0, 1, 1⟩, now := 7 } }

/-- A document holding just the `c4Ph` placeholder. -/
def c4Doc : Doc := { nodes := [Node.img c4Ph], sheets := [] }

/-- The step trace of one successful concrete conversion. -/
def c4Trace : List Step := (convertSVGtoInline c4Env c4Ph c4Doc 0).trace

/-- An environment whose fetch succeeds even on an unusable URL (a server
may well serve the relative path `undefined`) and whose response parses to
a graphic root. -/
def c5Env : Env :=
  { fetch := fun _ => Except.ok "served", parse := fun _ => some plainRoot,
    render := { bbox := fun _ => ⟨0, 0, 1, 1⟩, now := 2 } }

/-- A document holding one placeholder that exposes no URL at all. -/
def c5Doc : Doc := { nodes := [Node.img emptyElem], sheets := [] }

/-- An environment whose fetch rejects with a network error. -/
def c5ErrEnv : Env :=
  { fetch := fun _ => Except.error "net", parse := fun _ => none,
    render := { bbox := fun _ => ⟨0, 0, 1, 1⟩, now := 2 } }

/-- A descendant element of a converted graphic carrying class `a`. -/
def c6DescElem : Elem :=
  { attrs := [], classes := ["a"], classAttrDefined := true, display := none }

/-- The internal style rule `.a { fill: red; }` both graphics define. -/
def c6Rule : CSSRule := { selectorText := ".a", props := [("fill", "red")] }

/-- A parsed SVG root with DOM node id `nid`, one descendant of class `a`,
and one direct-child style sheet defining `.a`. -/
def c6Root (nid : Nat) : SvgRoot :=
  { nodeId := nid, elem := emptyElem, elems := [c6DescElem],
    ownSheets := [{ ownerParentId := nid, ownerText := ".a\x7bfill: red;\x7d",
                    rules := [c6Rule] }] }

/-- A placeholder with a plain `src` attribute. -/
def c6Ph : Elem :=
  { attrs := [("src", "logo.svg")], classes := [], classAttrDefined := false,
    display := none }

/-- The environment of the conversion whose clock reads `t` and whose
fetched markup parses to `c6Root nid`. -/
def c6Env (t nid : Nat) : Env :=
  { fetch := fun _ => Except.ok "<svg/>", parse := fun _ => some (c6Root nid),
    render := { bbox := fun _ => ⟨0, 0, 1, 1⟩, now := t } }

/-- A page with two placeholders slated for conversion. -/
def c6Doc : Doc := { nodes := [Node.img c6Ph, Node.img c6Ph], sheets := [] }

/-- The page after converting both placeholders, the first at clock `t1`,
the second at clock `t2`. -/
def c6After (t1 t2 : Nat) : Doc :=
  (convertSVGtoInline (c6Env t2 2) c6Ph
    (convertSVGtoInline (c6Env t1 1) c6Ph c6Doc 0).doc 1).doc

/-- A root that declares a `height` attribute with empty value, a `width`
attribute, and no `viewBox`. -/
def c7E : Elem :=
  { attrs := [("height", ""), ("width", "50")], classes := [],
    classAttrDefined := false, display := none }

/-- A root with truthy `height` and `width` attributes and no `viewBox`. -/
def c7W : Elem :=
  { attrs := [("height", "100"), ("width", "50")], classes := [],
    classAttrDefined := false, display := none }

/-- An environment whose fetch rejects with a network error. -/
def c8Env : Env :=
  { fetch := fun _ => Except.error "offline", parse := fun _ => some plainRoot,
    render := { bbox := fun _ => ⟨0, 0, 1, 1⟩, now := 4 } }

/-- A placeholder exposing its URL through the data-bound field. -/
def c8Ph : Elem :=
  { attrs := [("data-svg-src", "cdn.svg")], classes := [],
    classAttrDefined := false, display := none }

/-- A document holding just the `c8Ph` placeholder. -/
def c8Doc : Doc := { nodes := [Node.img c8Ph], sheets := [] }

/-- A stylesheet owned by a style node whose parent is not the inserted
root. -/
def c9Sheet : Sheet :=
  { ownerParentId := 9, ownerText := ".x\x7bfill: blue;\x7d",
    rules := [{ selectorText := ".x", props := [("fill", "blue")] }] }

/-- Decimal value of a digit character. -/
def digitVal (c : Char) : Nat := c.toNat - 48

/-- Decode a list of decimal digit characters back into the number. -/
def decodeDigits (l : List Char) : Nat :=
  l.foldl (fun a c => 10 * a + digitVal c) 0

theorem find?_map_overwrite (n v : String) (l : List (String × String)) :
    (l.find? (fun p => p.1 == n)).isSome →
      (l.map (fun p => if p.1 == n then (n, v) else p)).find? (fun p => p.1 == n)
        = some (n, v) := by
  induction l with
  | nil => intro h; simp [List.find?] at h
  | cons p t ih =>
    intro h
    by_cases hp : (p.1 == n) = true
    · rw [List.map_cons, if_pos hp, List.find?_cons]
      simp
    · have hpf : (p.1 == n) = false := by simpa using hp
      simp only [List.find?_cons, hpf] at h
      simp only [List.map_cons, hpf, Bool.false_eq_true, if_false, List.find?_cons]
      exact ih h

theorem find?_append_new (n v : String) (l : List (String × String))
    (h : l.find? (fun p => p.1 == n) = none) :
    (l ++ [(n, v)]).find? (fun p => p.1 == n) = some (n, v) := by
  rw [List.find?_append, h]
  simp [List.find?]

theorem getAttribute_setAttribute_self (e : Elem) (n v : String) :
    (e.setAttribute n v).getAttribute n = some v := by
  unfold Elem.setAttribute Elem.getAttribute
  by_cases h : (e.attrs.find? (fun p => p.1 == n)).isSome = true
  · rw [if_pos h]
    show ((e.attrs.map (fun p => if p.1 == n then (n, v) else p)).find?
      (fun p => p.1 == n)).map (fun p => p.2) = some v
    rw [find?_map_overwrite n v e.attrs h]
    rfl
  · rw [if_neg h]
    have h0 : e.attrs.find? (fun p => p.1 == n) = none := by
      cases hh : e.attrs.find? (fun p => p.1 == n) <;> simp [hh] at h ⊢
    show (((e.attrs ++ [(n, v)]).find? (fun p => p.1 == n)).map (fun p => p.2)) = some v
    rw [find?_append_new n v e.attrs h0]
    rfl

theorem classes_setAttribute (e : Elem) (n v : String) :
    (e.setAttribute n v).classes = e.classes := by
  unfold Elem.setAttribute
  split <;> rfl

theorem classes_removeAttribute (e : Elem) (n : String) :
    (e.removeAttribute n).classes = e.classes := rfl

theorem classes_setViewport (svg : Elem) :
    (setViewport svg).classes = svg.classes := by
  unfold setViewport
  split
  · rw [classes_setAttribute]
  · rfl

theorem getAttribute_safariHack (e : Elem) (n : String) :
    (safariHack e).getAttribute n = e.getAttribute n := rfl

theorem mem_classListAdd_self (e : Elem) (c : String) :
    c ∈ (e.classListAdd c).classes := by
  unfold Elem.classListAdd
  split
  · assumption
  · simp

theorem mem_classListAdd_of_mem (e : Elem) (a c : String) (h : a ∈ e.classes) :
    a ∈ (e.classListAdd c).classes := by
  unfold Elem.classListAdd
  split
  · exact h
  · simp [h]

theorem mem_of_mem_classListAdd (e : Elem) (a c : String)
    (h : a ∈ (e.classListAdd c).classes) : a ∈ e.classes ∨ a = c := by
  unfold Elem.classListAdd at h
  split at h
  · exact Or.inl h
  · simp at h
    exact h

theorem nsApplyRule_elem (uid : String) (acc : String × SvgRoot) (rule : CSSRule) :
    ((nsApplyRule uid acc rule).2).elem = acc.2.elem := rfl

theorem foldl_nsApplyRule_elem (uid : String) (rules : List CSSRule) :
    ∀ acc : String × SvgRoot,
      ((rules.foldl (nsApplyRule uid) acc).2).elem = acc.2.elem := by
  induction rules with
  | nil => intro acc; rfl
  | cons r t ih =>
    intro acc
    rw [List.foldl_cons, ih, nsApplyRule_elem]

theorem nsOneSheet_elem (uid : String) (r : SvgRoot) (s : Sheet) :
    ((nsOneSheet uid r s).2).elem = r.elem := by
  unfold nsOneSheet
  exact foldl_nsApplyRule_elem uid s.rules ("", r)

theorem nsSheets_elem (uid : String) (rid : Nat) :
    ∀ (ss : List Sheet) (r : SvgRoot), ((nsSheets uid rid r ss).1).elem = r.elem := by
  intro ss
  induction ss with
  | nil => intro r; rfl
  | cons s t ih =>
    intro r
    simp only [nsSheets]
    by_cases hb : (s.ownerParentId == rid) = true
    · rw [if_pos hb]
      rw [ih, nsOneSheet_elem]
    · rw [if_neg hb]
      exact ih r

theorem nsSheets_other (uid : String) (rid : Nat) :
    ∀ (ss : List Sheet) (r : SvgRoot) (i : Nat) (hi : i < ss.length),
      (ss.get ⟨i, hi⟩).ownerParentId ≠ rid →
      ((nsSheets uid rid r ss).2).get? i = some (ss.get ⟨i, hi⟩) := by
  intro ss
  induction ss with
  | nil => intro r i hi; simp at hi
  | cons s t ih =>
    intro r i hi hne
    simp only [nsSheets]
    by_cases hb : (s.ownerParentId == rid) = true
    · rw [if_pos hb]
      cases i with
      | zero =>
        exact absurd (by simpa using hb : s.ownerParentId = rid) (by simpa using hne)
      | succ j =>
        simp only [List.get?_cons_succ]
        exact ih _ j (by simpa using hi) (by simpa using hne)
    · rw [if_neg hb]
      cases i with
      | zero => simp
      | succ j =>
        simp only [List.get?_cons_succ]
        exact ih r j (by simpa using hi) (by simpa using hne)

theorem digitVal_digitChar : ∀ m < 10, digitVal (Nat.digitChar m) = m := by decide

theorem toDigitsCore_append10 :
    ∀ (fuel n : Nat) (ds : List Char),
      Nat.toDigitsCore 10 fuel n ds = Nat.toDigitsCore 10 fuel n [] ++ ds := by
  intro fuel
  induction fuel with
  | zero => intro n ds; simp [Nat.toDigitsCore]
  | succ f ih =>
    intro n ds
    simp only [Nat.toDigitsCore]
    by_cases h : n / 10 = 0
    · simp [h]
    · rw [if_neg h, if_neg h]
      rw [ih (n / 10) (Nat.digitChar (n % 10) :: ds), ih (n / 10) [Nat.digitChar (n % 10)]]
      simp

theorem decodeDigits_append (l : List Char) (c : Char) :
    decodeDigits (l ++ [c]) = 10 * decodeDigits l + digitVal c := by
  unfold decodeDigits
  rw [List.foldl_append]
  rfl

theorem decode_toDigitsCore :
    ∀ (fuel n : Nat), n < fuel → decodeDigits (Nat.toDigitsCore 10 fuel n []) = n := by
  intro fuel
  induction fuel with
  | zero => intro n h; omega
  | succ f ih =>
    intro n h
    simp only [Nat.toDigitsCore]
    by_cases h0 : n / 10 = 0
    · rw [if_pos h0]
      have hn : n < 10 := by omega
      have hm : n % 10 = n := by omega
      show decodeDigits [Nat.digitChar (n % 10)] = n
      unfold decodeDigits
      simp only [List.foldl_cons, List.foldl_nil, Nat.mul_zero, Nat.zero_add]
      rw [hm]
      exact digitVal_digitChar n hn
    · rw [if_neg h0]
      rw [toDigitsCore_append10 f (n / 10) [Nat.digitChar (n % 10)]]
      rw [decodeDigits_append]
      rw [ih (n / 10) (by omega)]
      rw [digitVal_digitChar (n % 10) (by omega)]
      omega

theorem decodeDigits_repr (n : Nat) : decodeDigits (Nat.repr n).data = n := by
  have h : (Nat.repr n).data = Nat.toDigitsCore 10 (n + 1) n [] := rfl
  rw [h]
  exact decode_toDigitsCore (n + 1) n (Nat.lt_succ_self n)

theorem nat_repr_data_inj (a b : Nat)
    (h : (Nat.repr a).data = (Nat.repr b).data) : a = b := by
  rw [← decodeDigits_repr a, ← decodeDigits_repr b, h]

theorem stripLeadingDigits_uid (t : Nat) :
    stripLeadingDigits ("uid-" ++ Nat.repr t) = "uid-" ++ Nat.repr t := rfl

theorem nsClassName_ne (t1 t2 : Nat) (c : String) (h : t1 ≠ t2) :
    nsClassName t1 c ≠ nsClassName t2 c := by
  unfold nsClassName
  rw [stripLeadingDigits_uid, stripLeadingDigits_uid]
  intro he
  apply h
  apply nat_repr_data_inj
  have hd := congrArg String.data he
  simp only [String.data_append] at hd
  exact List.append_cancel_left (List.append_cancel_right (List.append_cancel_right hd))

theorem rootViewBoxAt_set (nodes : List Node) (sheets : List Sheet) (k : Nat)
    (hk : k < nodes.length) (r : SvgRoot) :
    rootViewBoxAt { nodes := nodes.set k (Node.svg r), sheets := sheets } k
      = r.elem.getAttribute "viewBox" := by
  unfold rootViewBoxAt rootElemAt
  dsimp only
  rw [List.get?_set_eq_of_lt _ hk]
  rfl

theorem process_viewBox (renv : RenderEnv) (st : ProcState) (h : st.nsDone = false) :
    (((processFeaturedMerchantsImages renv st).1).root.elem).getAttribute "viewBox"
      = some (rectJoin (renv.bbox false)) := by
  unfold processFeaturedMerchantsImages
  dsimp only
  rw [getAttribute_safariHack]
  unfold svgPrependClassIdentifiers
  dsimp only
  rw [nsSheets_elem]
  unfold removeSVGWhiteSpace
  dsimp only
  rw [h]
  exact getAttribute_setAttribute_self _ "viewBox" _

/-- C1: the conversion is supposed to carry the placeholder's `id` attribute
onto the inserted root, as the source's own comment says, but
`optimizeInlineSVG` reads the parsed root's `id` rather than the
placeholder's: converting `c1Ph` (id "logo") onto markup whose root has no
id leaves the root with id "", not "logo". -/
theorem convertSVGtoInline_ignores_placeholder_id :
    c1Ph.getAttribute "id" = some "logo" ∧
    rootIdAt (convertSVGtoInline c1Env c1Ph c1Doc 0).doc 0 = some "" ∧
    rootIdAt (convertSVGtoInline c1Env c1Ph c1Doc 0).doc 0 ≠ some "logo" := by
  refine ⟨rfl, by decide, by decide⟩

/-- C8: a conversion whose fetch rejects (network error) leaves the document
— and so the placeholder — exactly as it was, performs no DOM mutation,
and produces exactly one FetchError, which propagates as the rejection of
the uncaught promise chain. -/
theorem fetch_failure_leaves_document_unchanged
    (env : Env) (ph : Elem) (doc : Doc) (k : Nat) (m : String)
    (hf : env.fetch (resolveURL ph) = Except.error m) :
    convertSVGtoInline env ph doc k =
      { doc := doc, err := some (ConvErr.fetchError m), trace := [] } := by
  unfold convertSVGtoInline
  dsimp only
  rw [hf]

/-- Witness for C8 at a concrete offline environment. -/
theorem fetch_failure_leaves_document_unchanged_witness :
    convertSVGtoInline c8Env c8Ph c8Doc 0 =
      { doc := c8Doc, err := some (ConvErr.fetchError "offline"), trace := [] } :=
  fetch_failure_leaves_document_unchanged c8Env c8Ph c8Doc 0 "offline" rfl

/-- C9: during style namespacing only the stylesheets whose owner style node
is a direct child of the inserted root (`ownerParentId = root.nodeId`) are
rewritten; every sheet owned elsewhere is returned unchanged, rules and
text included. -/
theorem namespacing_preserves_unrelated_sheets
    (now : Nat) (root : SvgRoot) (sheets : List Sheet) (i : Nat) (hi : i < sheets.length)
    (h : (sheets.get ⟨i, hi⟩).ownerParentId ≠ root.nodeId) :
    ((svgPrependClassIdentifiers now root sheets).2).get? i = some (sheets.get ⟨i, hi⟩) := by
  unfold svgPrependClassIdentifiers
  exact nsSheets_other _ root.nodeId sheets root i hi h

/-- Witness for C9: a sheet owned by an unrelated node survives namespacing. -/
theorem namespacing_preserves_unrelated_sheets_witness :
    ((svgPrependClassIdentifiers 3 (c6Root 1) [c9Sheet]).2).get? 0 = some c9Sheet := by
  have h := namespacing_preserves_unrelated_sheets 3 (c6Root 1) [c9Sheet] 0 (by decide) (by decide)
  simpa using h

/-- C10: after the post-insertion processing of every completed conversion the
inserted root's inline display style is the literal 'flex', whatever
display value the root had before; the prior value is never restored. -/
theorem display_set_to_flex_after_processing (env : RenderEnv) (st : ProcState) :
    (((processFeaturedMerchantsImages env st).1).root.elem).display = some "flex" := rfl

/-- C2 counterexample: the placeholder `c2Ph` has no class attribute at all,
yet after conversion the inserted root carries `replaced-svg`; the claimed
"if and only if the placeholder had a non-undefined class attribute" fails
because the source checks the parsed root's always-defined `className`,
never the placeholder's. -/
theorem replacedSvg_added_without_placeholder_class :
    c2Ph.classAttrDefined = false ∧
    rootHasClass (convertSVGtoInline c2Env c2Ph c2Doc 0).doc 0 "replaced-svg" = true ∧
    ¬ (rootHasClass (convertSVGtoInline c2Env c2Ph c2Doc 0).doc 0 "replaced-svg" = true
        ↔ c2Ph.classAttrDefined = true) := by
  refine ⟨rfl, by decide, by decide⟩

/-- C2 (amended): the optimization step unconditionally adds both marker
classes — `img-fluid`, and also `replaced-svg`, since the guarding typeof
check can never fail — and adds nothing else to the class list, so no
class list of the placeholder is ever copied onto the root. -/
theorem optimizeInlineSVG_marker_classes (e : Elem) :
    "img-fluid" ∈ (optimizeInlineSVG e).classes ∧
    "replaced-svg" ∈ (optimizeInlineSVG e).classes ∧
    ∀ c, c ∈ (optimizeInlineSVG e).classes →
      c ∈ e.classes ∨ c = "replaced-svg" ∨ c = "img-fluid" := by
  have hcls : (optimizeInlineSVG e).classes
      = (((e.setAttribute "id" e.idProp).classListAdd "replaced-svg").classListAdd
          "img-fluid").classes := by
    show (setViewport ((((e.setAttribute "id" e.idProp).classListAdd
        "replaced-svg").classListAdd "img-fluid").removeAttribute "xmlns:a")).classes = _
    rw [classes_setViewport, classes_removeAttribute]
  refine ⟨?_, ?_, ?_⟩
  · rw [hcls]
    exact mem_classListAdd_self _ _
  · rw [hcls]
    exact mem_classListAdd_of_mem _ _ _ (mem_classListAdd_self _ _)
  · intro c hc
    rw [hcls] at hc
    rcases mem_of_mem_classListAdd _ _ _ hc with hc2 | hfl
    · rcases mem_of_mem_classListAdd _ _ _ hc2 with hc3 | hrs
      · rw [classes_setAttribute] at hc3
        exact Or.inl hc3
      · exact Or.inr (Or.inl hrs)
    · exact Or.inr (Or.inr hfl)

/-- Witness for the amended C2 at a concrete element carrying class `a`. -/
theorem optimizeInlineSVG_marker_classes_witness :
    "a" ∈ c2E0.classes ∨ "a" = "replaced-svg" ∨ "a" = "img-fluid" :=
  (optimizeInlineSVG_marker_classes c2E0).2.2 "a" (by decide)

/-- C7 counterexample: `c7E` declares a `height` attribute (with empty value)
and a `width` attribute and lacks `viewBox`, yet `setViewport` synthesizes
nothing, because the source tests attribute truthiness, not presence. -/
theorem setViewport_skips_empty_height :
    c7E.getAttribute "viewBox" = none ∧
    (c7E.getAttribute "height").isSome = true ∧
    (c7E.getAttribute "width").isSome = true ∧
    (setViewport c7E).getAttribute "viewBox" = none := by
  refine ⟨rfl, rfl, rfl, by decide⟩

/-- C7 (amended): `setViewport` synthesizes the viewBox `0 0 <height> <width>`
(height first) exactly when the root's `viewBox` attribute is absent or
empty and both `height` and `width` attributes are present with non-empty
values; in every other case the root is left unchanged. -/
theorem setViewport_synthesis_iff_truthy (svg : Elem) :
    (∀ hv wv, svg.getAttribute "height" = some hv → hv ≠ "" →
      svg.getAttribute "width" = some wv → wv ≠ "" →
      (svg.getAttribute "viewBox" = none ∨ svg.getAttribute "viewBox" = some "") →
      (setViewport svg).getAttribute "viewBox"
        = some ("0 0 " ++ hv ++ " " ++ wv)) ∧
    ((jsTruthy (svg.getAttribute "viewBox") = true
      ∨ jsTruthy (svg.getAttribute "height") = false
      ∨ jsTruthy (svg.getAttribute "width") = false) →
      setViewport svg = svg) := by
  constructor
  · intro hv wv hh hhne hw hwne hvb
    unfold setViewport
    have hcond : (!(jsTruthy (svg.getAttribute "viewBox"))
        && jsTruthy (svg.getAttribute "height")
        && jsTruthy (svg.getAttribute "width")) = true := by
      rcases hvb with h | h <;> simp [h, jsTruthy, hh, hw, hhne, hwne]
    rw [if_pos hcond, hh, hw]
    simp only [Option.getD_some]
    exact getAttribute_setAttribute_self svg "viewBox" _
  · intro h
    unfold setViewport
    have hcond : (!(jsTruthy (svg.getAttribute "viewBox"))
        && jsTruthy (svg.getAttribute "height")
        && jsTruthy (svg.getAttribute "width")) = false := by
      rcases h with h | h | h <;> simp [h]
    rw [if_neg (by simp [hcond])]

/-- Witness for the amended C7: height 100 and width 50 yield `0 0 100 50`. -/
theorem setViewport_synthesis_iff_truthy_witness :
    (setViewport c7W).getAttribute "viewBox" = some ("0 0 " ++ "100" ++ " " ++ "50") :=
  (setViewport_synthesis_iff_truthy c7W).1 "100" "50" rfl (by decide) rfl (by decide)
    (Or.inl rfl)

/-- C5 counterexample: the placeholder exposes no URL at all, so the resolved
URL is undefined, yet the code still issues the fetch; with a server that
answers that request with parseable markup the conversion does occur and
mutates the document, contradicting "no conversion of the document
occurs". -/
theorem conversion_proceeds_without_usable_url :
    resolveURL emptyElem = none ∧
    (convertSVGtoInline c5Env emptyElem c5Doc 0).doc ≠ c5Doc := by
  refine ⟨rfl, by decide⟩

/-- C5 (amended): the data-bound URL field takes precedence exactly when it
is truthy, otherwise the generic source attribute is used; when neither
yields a usable URL the fetch is attempted anyway with the unusable value,
and only when that fetch fails does the document stay unchanged, the
failure propagating as a rejection the module itself never reports. -/
theorem resolveURL_precedence_and_fetch_failure :
    (∀ ph : Elem, jsTruthy (ph.getAttribute "data-svg-src") = true →
      resolveURL ph = ph.getAttribute "data-svg-src") ∧
    (∀ ph : Elem, jsTruthy (ph.getAttribute "data-svg-src") = false →
      resolveURL ph = ph.getAttribute "src") ∧
    (∀ (env : Env) (ph : Elem) (doc : Doc) (k : Nat) (m : String),
      jsTruthy (resolveURL ph) = false →
      env.fetch (resolveURL ph) = Except.error m →
      convertSVGtoInline env ph doc k =
        { doc := doc, err := some (ConvErr.fetchError m), trace := [] }) := by
  refine ⟨?_, ?_, ?_⟩
  · intro ph h
    unfold resolveURL jsOr
    rw [if_pos h]
  · intro ph h
    unfold resolveURL jsOr
    rw [if_neg (by simp [h])]
  · intro env ph doc k m _ hf
    unfold convertSVGtoInline
    dsimp only
    rw [hf]

/-- Witness for the amended C5: a placeholder with no URL and a failing
fetch leaves the document unchanged with a propagating FetchError. -/
theorem resolveURL_precedence_and_fetch_failure_witness :
    convertSVGtoInline c5ErrEnv emptyElem c5Doc 0 =
      { doc := c5Doc, err := some (ConvErr.fetchError "net"), trace := [] } :=
  resolveURL_precedence_and_fetch_failure.2.2 c5ErrEnv emptyElem c5Doc 0 "net" rfl rfl

/-- C4 counterexample: in the step trace of a concrete successful conversion
an optimization step occurs after the replacement step — the source runs
`optimizeInlineSVG` again inside `processFeaturedMerchantsImages` — so
"the replacement occurs after all attribute optimizations" is false. -/
theorem optimize_step_follows_replacement :
    ¬ (c4Trace.count Step.replace = 1 ∧
       (∀ i j : Fin c4Trace.length,
         c4Trace.get i = Step.optimize → c4Trace.get j = Step.replace →
           (i : Nat) < (j : Nat)) ∧
       (∀ i j : Fin c4Trace.length,
         c4Trace.get i = Step.replace →
         (c4Trace.get j = Step.trim ∨ c4Trace.get j = Step.nsStyles ∨
           c4Trace.get j = Step.repaint) →
           (i : Nat) < (j : Nat))) := by
  decide

/-- C4 (amended): every successful conversion produces exactly one
replacement step, after a first full application of the attribute
optimizations and before the whitespace-trim, style-namespacing and
forced-repaint fixups; the optimization pass runs once more immediately
after the replacement and before those fixups. -/
theorem conversion_step_order
    (env : Env) (ph : Elem) (doc : Doc) (k : Nat) (text : String) (root0 : SvgRoot)
    (hf : env.fetch (resolveURL ph) = Except.ok text)
    (hp : env.parse text = some root0) :
    (convertSVGtoInline env ph doc k).trace
        = [Step.optimize, Step.replace, Step.optimize, Step.trim, Step.nsStyles,
            Step.repaint] ∧
    ((convertSVGtoInline env ph doc k).trace).count Step.replace = 1 := by
  have ht : (convertSVGtoInline env ph doc k).trace
      = [Step.optimize, Step.replace, Step.optimize, Step.trim, Step.nsStyles,
          Step.repaint] := by
    unfold convertSVGtoInline
    dsimp only
    rw [hf]
    dsimp only
    rw [hp]
    rfl
  exact ⟨ht, by rw [ht]; rfl⟩

/-- Witness for the amended C4 at a concrete successful conversion. -/
theorem conversion_step_order_witness :
    (convertSVGtoInline c4Env c4Ph c4Doc 0).trace
        = [Step.optimize, Step.replace, Step.optimize, Step.trim, Step.nsStyles,
            Step.repaint] :=
  (conversion_step_order c4Env c4Ph c4Doc 0 "svg" plainRoot rfl rfl).1

/-- C3 counterexample: with a bounding box that differs between the
pre-namespacing and post-namespacing phases, the final viewBox is the box
sampled before namespacing, not the post-namespacing box the claim
requires. -/
theorem viewBox_not_post_namespacing_bbox :
    rootViewBoxAt (convertSVGtoInline c3Env c3Ph c3Doc 0).doc 0
        = some (rectJoin (c3Bbox false)) ∧
    rootViewBoxAt (convertSVGtoInline c3Env c3Ph c3Doc 0).doc 0
        ≠ some (rectJoin (c3Bbox true)) := by
  refine ⟨by decide, by decide⟩

/-- C3 (amended): for every successful conversion the trim step overwrites
whatever `viewBox` the root had — including one synthesized during
attribute optimization — with the joined bounding box of the root sampled
after insertion but before the internal styles are namespaced. -/
theorem viewBox_overwritten_with_preNamespacing_bbox
    (env : Env) (ph : Elem) (doc : Doc) (k : Nat) (text : String) (root0 : SvgRoot)
    (hf : env.fetch (resolveURL ph) = Except.ok text)
    (hp : env.parse text = some root0)
    (hk : k < doc.nodes.length) :
    rootViewBoxAt (convertSVGtoInline env ph doc k).doc k
      = some (rectJoin (env.render.bbox false)) := by
  unfold convertSVGtoInline
  dsimp only
  rw [hf]
  dsimp only
  rw [hp]
  dsimp only
  rw [rootViewBoxAt_set _ _ _ (by simpa using hk)]
  exact process_viewBox env.render _ rfl

/-- Witness for the amended C3 at the concrete phase-sensitive environment. -/
theorem viewBox_overwritten_with_preNamespacing_bbox_witness :
    rootViewBoxAt (convertSVGtoInline c3Env c3Ph c3Doc 0).doc 0
      = some (rectJoin (c3Env.render.bbox false)) :=
  viewBox_overwritten_with_preNamespacing_bbox c3Env c3Ph c3Doc 0 "<svg/>" c3Root
    rfl rfl (by decide)

/-- C6 (amended): converting two graphics that both define class `a` at
distinct clock readings yields distinct namespaced class names, and each
root's elements carry exactly their own conversion's namespaced class. -/
theorem namespaced_classes_distinct_for_distinct_timestamps
    (t1 t2 : Nat) (h : t1 ≠ t2) :
    nsClassName t1 "a" ≠ nsClassName t2 "a" ∧
    rootClassesAt (c6After t1 t2) 0 = some [[nsClassName t1 "a"]] ∧
    rootClassesAt (c6After t1 t2) 1 = some [[nsClassName t2 "a"]] :=
  ⟨nsClassName_ne t1 t2 "a" h, rfl, rfl⟩

/-- C6 counterexample: two conversions in the same millisecond (`Date.now()`
reading 5 both times) produce identical namespaced class names for the two
roots — the collision the claim rules out. -/
theorem namespaced_classes_collide_on_equal_timestamps :
    rootClassesAt (c6After 5 5) 0 = rootClassesAt (c6After 5 5) 1 ∧
    rootClassesAt (c6After 5 5) 0 = some [[nsClassName 5 "a"]] := by
  refine ⟨rfl, rfl⟩

/-- Witness for the amended C6 at clocks 1 and 2. -/
theorem namespaced_classes_distinct_for_distinct_timestamps_witness :
    nsClassName 1 "a" ≠ nsClassName 2 "a" :=
  (namespaced_classes_distinct_for_distinct_timestamps 1 2 (by decide)).1
